import Mathlib

/-!
Verification of the feature-vector module of scip-dagger (src/feat.c).

The shallow embedding below translates the C code of feat.c into Lean:
the struct SCIP_FEAT becomes a Lean structure (C doubles become ℚ, C ints
become ℤ, the value array becomes a List ℚ), the mutating C functions
become functions returning the updated structure, and the libsvm printers
become functions producing the list of emitted tokens.  Solver state read
through external SCIP accessors (node, tree, variable, column, statistics)
is gathered into an explicit input structure.
-/

/-- Embedding of `struct SCIP_FEAT` (declared in struct_feat.h, used by
feat.c): `vals` is the value array, the remaining fields are the scalar
metadata.  C `SCIP_Real` is modelled by ℚ and C `int` (and the enum
`SCIP_BOUNDTYPE`, stored via its integer value) by ℤ; `size` is kept as ℕ
since it is the length of the value array. -/
structure SCIP_FEAT where
  vals : List ℚ
  size : ℕ
  depth : ℤ
  maxdepth : ℤ
  boundtype : ℤ
  rootlpobj : ℚ
  sumobjcoeff : ℚ
  nconstrs : ℤ
deriving DecidableEq

/-- Embedding of `SCIPfeatGetSize` (feat.c line 314). -/
def SCIPfeatGetSize (feat : SCIP_FEAT) : ℕ :=
  feat.size

/-- Embedding of `SCIPfeatGetOffset` (feat.c line 353):
`(feat->size * 2) * (feat->depth / (feat->maxdepth / 10)) + (feat->size * (int)feat->boundtype)`.
C `int` division truncates toward zero, which is `Int.tdiv`. -/
def SCIPfeatGetOffset (feat : SCIP_FEAT) : ℤ :=
  ((feat.size : ℤ) * 2) * (feat.depth.tdiv (feat.maxdepth.tdiv 10)) +
    (feat.size : ℤ) * feat.boundtype

/-- The offset formula as the spec words it (spec §4.3): integer *floor*
division, `offset = size*2*(depth / (maxDepth/10)) + size*boundType`. -/
def specOffset (feat : SCIP_FEAT) : ℤ :=
  ((feat.size : ℤ) * 2) * (feat.depth.fdiv (feat.maxdepth.fdiv 10)) +
    (feat.size : ℤ) * feat.boundtype

/-- The concrete offset scenario of the spec: size=11, depth=25,
maxDepth=100, boundType=LOWER(1). -/
def offsetScenarioFeat : SCIP_FEAT :=
  { vals := [], size := 11, depth := 25, maxdepth := 100, boundtype := 1,
    rootlpobj := 0, sumobjcoeff := 0, nconstrs := 0 }

theorem tdiv_eq_fdiv_of_nonneg {a b : ℤ} (ha : 0 ≤ a) (hb : 0 ≤ b) :
    a.tdiv b = a.fdiv b :=
  (Int.fdiv_eq_tdiv ha hb).symm

/-- C2: for every feature vector with nonzero `maxdepth` (and the
nonnegative `depth`/`maxdepth` every tree node has), the sparse-export
offset computed by `SCIPfeatGetOffset` equals the spec's formula
`size*2*(depth / (maxDepth/10)) + size*boundType` with integer floor
division; and on the concrete scenario size=11, depth=25, maxDepth=100,
boundType=1 the offset is 55. -/
theorem offset_matches_spec_formula :
    (∀ feat : SCIP_FEAT, feat.maxdepth ≠ 0 → 0 ≤ feat.depth → 0 ≤ feat.maxdepth →
      SCIPfeatGetOffset feat = specOffset feat) ∧
    SCIPfeatGetOffset offsetScenarioFeat = 55 := by
  constructor
  · intro feat _ hd hm
    unfold SCIPfeatGetOffset specOffset
    rw [tdiv_eq_fdiv_of_nonneg hm (by norm_num),
        tdiv_eq_fdiv_of_nonneg hd (Int.fdiv_nonneg hm (by norm_num))]
  · decide

/-- Witness for C2: the universally quantified part applied at the concrete
scenario vector, all hypotheses discharged by evaluation. -/
theorem offset_matches_spec_formula_witness :
    SCIPfeatGetOffset offsetScenarioFeat = specOffset offsetScenarioFeat :=
  offset_matches_spec_formula.1 offsetScenarioFeat (by decide) (by decide) (by decide)

/-- One token of libsvm output: the leading label (printed `"%d "`), an
`index:value` pair (printed `"%d:%f "`), or the trailing newline
(`"\n"`).  Each printer call emits exactly one line, so its output is a
token list beginning with `lab` and ending with `nl`. -/
inductive Tok where
  | lab (l : ℤ)
  | pair (idx : ℤ) (v : ℚ)
  | nl
deriving DecidableEq

/-- The sequence of `index` fields of the `index:value` pairs emitted in a
token list, in emission order. -/
def emittedIndices (toks : List Tok) : List ℤ :=
  toks.filterMap fun t =>
    match t with
    | Tok.pair idx _ => some idx
    | _ => none

/-- Embedding of `SCIPfeatLIBSVMPrint` (feat.c lines 250-274): prints the
label, then for `i = 0 .. size-1` the pair `(i + offset + 1, vals[i])`,
then a newline.  `vals[i]` is read with `getD _ 0`; the C precondition is
that the array has length `size`. -/
def SCIPfeatLIBSVMPrint (feat : SCIP_FEAT) (label : ℤ) : List Tok :=
  let size := SCIPfeatGetSize feat
  let offset := SCIPfeatGetOffset feat
  Tok.lab label ::
    ((List.range size).map fun i => Tok.pair (((i : ℕ) : ℤ) + offset + 1) (feat.vals.getD i 0))
    ++ [Tok.nl]

/-- Body of `SCIPfeatDiffLIBSVMPrint` after the `negate` swap (feat.c lines
212-246): label, then either a single merged block (equal offsets), or two
blocks written in ascending offset order — `feat1`'s raw values at indices
`i + offset1 + 1` and `feat2`'s negated values at indices `i + offset2 + 1`
— then a newline.  Both loops run to `size = SCIPfeatGetSize(feat1)`. -/
def featDiffPrintBody (feat1 feat2 : SCIP_FEAT) (label : ℤ) : List Tok :=
  let size := SCIPfeatGetSize feat1
  let offset1 := SCIPfeatGetOffset feat1
  let offset2 := SCIPfeatGetOffset feat2
  Tok.lab label ::
    (if offset1 = offset2 then
      (List.range size).map fun i =>
        Tok.pair (((i : ℕ) : ℤ) + offset1 + 1) (feat1.vals.getD i 0 - feat2.vals.getD i 0)
    else if offset1 < offset2 then
      ((List.range size).map fun i => Tok.pair (((i : ℕ) : ℤ) + offset1 + 1) (feat1.vals.getD i 0))
        ++ ((List.range size).map fun i => Tok.pair (((i : ℕ) : ℤ) + offset2 + 1) (-(feat2.vals.getD i 0)))
    else
      ((List.range size).map fun i => Tok.pair (((i : ℕ) : ℤ) + offset2 + 1) (-(feat2.vals.getD i 0)))
        ++ ((List.range size).map fun i => Tok.pair (((i : ℕ) : ℤ) + offset1 + 1) (feat1.vals.getD i 0)))
    ++ [Tok.nl]

/-- Embedding of `SCIPfeatDiffLIBSVMPrint` (feat.c lines 183-247): when
`negate` is set the two vectors are swapped and the label is multiplied by
-1 (lines 204-210) before the body runs. -/
def SCIPfeatDiffLIBSVMPrint (feat1 feat2 : SCIP_FEAT) (label : ℤ) (negate : Bool) :
    List Tok :=
  if negate then featDiffPrintBody feat2 feat1 ((-1) * label)
  else featDiffPrintBody feat1 feat2 label

theorem emittedIndices_block (off : ℤ) (n : ℕ) (v : ℕ → ℚ) :
    emittedIndices ((List.range n).map fun i => Tok.pair (((i : ℕ) : ℤ) + off + 1) (v i)) =
      (List.range n).map fun i => ((i : ℕ) : ℤ) + off + 1 := by
  induction n with
  | zero => rfl
  | succ m ih => simp [List.range_succ, emittedIndices, List.filterMap_append] at ih ⊢ <;> exact ih

theorem pairwise_lt_shifted_range (off : ℤ) (n : ℕ) :
    List.Pairwise (· < ·) ((List.range n).map fun i => ((i : ℕ) : ℤ) + off + 1) := by
  rw [List.pairwise_map]
  exact (List.pairwise_lt_range n).imp fun hab => by omega

/-- C5: on a computed vector (depth ≠ 0) of size n, `SCIPfeatLIBSVMPrint`
emits one line: the label, then exactly n `index:value` pairs where slot i
carries index `i + offset + 1` (so the indices are `offset+1 .. offset+n`,
strictly ascending), then the trailing newline. -/
theorem libsvm_print_single_line (feat : SCIP_FEAT) (label : ℤ)
    (hdepth : feat.depth ≠ 0) :
    SCIPfeatLIBSVMPrint feat label =
      Tok.lab label ::
        ((List.range feat.size).map fun i =>
          Tok.pair (((i : ℕ) : ℤ) + SCIPfeatGetOffset feat + 1) (feat.vals.getD i 0))
        ++ [Tok.nl] ∧
    (emittedIndices (SCIPfeatLIBSVMPrint feat label)).length = feat.size ∧
    emittedIndices (SCIPfeatLIBSVMPrint feat label) =
      (List.range feat.size).map (fun i => SCIPfeatGetOffset feat + 1 + ((i : ℕ) : ℤ)) ∧
    List.Pairwise (· < ·) (emittedIndices (SCIPfeatLIBSVMPrint feat label)) := by
  have hIdx : emittedIndices (SCIPfeatLIBSVMPrint feat label) =
      (List.range feat.size).map fun i => ((i : ℕ) : ℤ) + SCIPfeatGetOffset feat + 1 := by
    have h := emittedIndices_block (SCIPfeatGetOffset feat) feat.size
      (fun i => feat.vals.getD i 0)
    simpa [SCIPfeatLIBSVMPrint, SCIPfeatGetSize, emittedIndices,
      List.filterMap_append] using h
  refine ⟨rfl, ?_, ?_, ?_⟩
  · rw [hIdx]; simp
  · rw [hIdx]
    exact List.map_congr_left fun i _ => by ring
  · rw [hIdx]
    exact pairwise_lt_shifted_range (SCIPfeatGetOffset feat) feat.size

/-- C6: `WriteDiff(a, b, label, negate=true)` produces exactly the output
of `WriteDiff(b, a, -label, negate=false)`: the `negate` flag swaps the
two vectors and flips the label's sign. -/
theorem diff_print_negate_swaps (feat1 feat2 : SCIP_FEAT) (label : ℤ) :
    SCIPfeatDiffLIBSVMPrint feat1 feat2 label true =
      SCIPfeatDiffLIBSVMPrint feat2 feat1 (-label) false := by
  simp [SCIPfeatDiffLIBSVMPrint]

/-- A computed vector used to instantiate the printer theorems. -/
def printScenarioFeat : SCIP_FEAT :=
  { vals := [3, 0, 5], size := 3, depth := 20, maxdepth := 100, boundtype := 0,
    rootlpobj := 0, sumobjcoeff := 0, nconstrs := 0 }

/-- Witness for C5: the theorem applied to a concrete computed vector; the
depth precondition is discharged by evaluation. -/
theorem libsvm_print_single_line_witness :
    printScenarioFeat.depth ≠ 0 ∧
    (emittedIndices (SCIPfeatLIBSVMPrint printScenarioFeat 1)).length = printScenarioFeat.size :=
  ⟨by decide, (libsvm_print_single_line printScenarioFeat 1 (by decide)).2.1⟩

/-- The elementwise difference vector of two feature vectors: slot i holds
`a.vals[i] - b.vals[i]`; all scalar metadata (hence also the computed
offset) is taken from `a`. -/
def featDiff (a b : SCIP_FEAT) : SCIP_FEAT :=
  { a with vals := a.vals.zipWith (fun x y => x - y) b.vals }

theorem getD_zipWith_sub (l1 l2 : List ℚ) (i : ℕ)
    (h1 : i < l1.length) (h2 : i < l2.length) :
    (l1.zipWith (fun x y => x - y) l2).getD i 0 = l1.getD i 0 - l2.getD i 0 := by
  induction l1 generalizing l2 i with
  | nil => simp at h1
  | cons x xs ih =>
    cases l2 with
    | nil => simp at h2
    | cons y ys =>
      cases i with
      | zero => simp
      | succ j =>
        simp only [List.zipWith_cons_cons, List.getD_cons_succ]
        exact ih ys j (by simpa using h1) (by simpa using h2)

/-- C7: on two computed equal-size vectors with equal offsets, `WriteDiff`
with `negate=false` is exactly `WriteSingle` applied, with the same label,
to the elementwise difference vector: one merged line whose slot i has
index `i + offsetA + 1` and value `valsA[i] - valsB[i]`. -/
theorem diff_print_equal_offsets_is_single_of_diff (a b : SCIP_FEAT) (label : ℤ)
    (hsize : a.size = b.size)
    (hla : a.vals.length = a.size) (hlb : b.vals.length = b.size)
    (hoff : SCIPfeatGetOffset a = SCIPfeatGetOffset b) :
    SCIPfeatDiffLIBSVMPrint a b label false = SCIPfeatLIBSVMPrint (featDiff a b) label := by
  simp only [SCIPfeatDiffLIBSVMPrint, featDiffPrintBody, SCIPfeatLIBSVMPrint,
    SCIPfeatGetSize, if_neg Bool.false_ne_true]
  rw [if_pos hoff]
  rw [show SCIPfeatGetOffset (featDiff a b) = SCIPfeatGetOffset a from rfl,
      show (featDiff a b).size = a.size from rfl]
  refine congrArg _ (congrArg (fun l => l ++ [Tok.nl]) ?_)
  refine List.map_congr_left fun i hi => ?_
  have hi' : i < a.size := List.mem_range.mp hi
  rw [show (featDiff a b).vals = a.vals.zipWith (fun x y => x - y) b.vals from rfl,
      getD_zipWith_sub a.vals b.vals i (by omega) (by omega)]

/-- A second computed vector, placed at a different offset (depth bucket)
than `printScenarioFeat`, used to instantiate the diff-printer theorems. -/
def printScenarioFeatB : SCIP_FEAT :=
  { vals := [2, 7, 1], size := 3, depth := 20, maxdepth := 100, boundtype := 0,
    rootlpobj := 0, sumobjcoeff := 0, nconstrs := 0 }

/-- Witness for C7: the theorem applied to two concrete equal-size,
equal-offset computed vectors, all hypotheses discharged by evaluation. -/
theorem diff_print_equal_offsets_is_single_of_diff_witness :
    SCIPfeatDiffLIBSVMPrint printScenarioFeat printScenarioFeatB 1 false =
      SCIPfeatLIBSVMPrint (featDiff printScenarioFeat printScenarioFeatB) 1 :=
  diff_print_equal_offsets_is_single_of_diff printScenarioFeat printScenarioFeatB 1
    (by decide) (by decide) (by decide) (by decide)

/-- Vector A's contribution to a two-block diff line: its raw (positive)
values at indices `i + offsetA + 1`. -/
def featBlockPos (a : SCIP_FEAT) (n : ℕ) : List Tok :=
  (List.range n).map fun i => Tok.pair (((i : ℕ) : ℤ) + SCIPfeatGetOffset a + 1) (a.vals.getD i 0)

/-- Vector B's contribution to a two-block diff line: its negated values at
indices `i + offsetB + 1`.  Both loops in the C code run to A's size, so
the block length `n` is a parameter. -/
def featBlockNeg (b : SCIP_FEAT) (n : ℕ) : List Tok :=
  (List.range n).map fun i => Tok.pair (((i : ℕ) : ℤ) + SCIPfeatGetOffset b + 1) (-(b.vals.getD i 0))

theorem offset_eq_size_mul (f : SCIP_FEAT) :
    SCIPfeatGetOffset f = (f.size : ℤ) * (2 * f.depth.tdiv (f.maxdepth.tdiv 10) + f.boundtype) := by
  unfold SCIPfeatGetOffset
  ring

theorem offset_gap (a b : SCIP_FEAT) (hsize : a.size = b.size) (hpos : 0 < a.size)
    (hlt : SCIPfeatGetOffset a < SCIPfeatGetOffset b) :
    SCIPfeatGetOffset a + (a.size : ℤ) ≤ SCIPfeatGetOffset b := by
  rw [offset_eq_size_mul a, offset_eq_size_mul b, ← hsize] at *
  have hs : (0 : ℤ) < (a.size : ℤ) := by exact_mod_cast hpos
  have hk : 2 * a.depth.tdiv (a.maxdepth.tdiv 10) + a.boundtype <
      2 * b.depth.tdiv (b.maxdepth.tdiv 10) + b.boundtype :=
    lt_of_mul_lt_mul_left hlt (le_of_lt hs)
  nlinarith [hk, hs]

theorem pairwise_lt_two_blocks (off1 off2 : ℤ) (n : ℕ) (v1 v2 : ℕ → ℚ)
    (hgap : off1 + (n : ℤ) ≤ off2) :
    List.Pairwise (· < ·) (emittedIndices
      (((List.range n).map fun i => Tok.pair (((i : ℕ) : ℤ) + off1 + 1) (v1 i)) ++
       ((List.range n).map fun i => Tok.pair (((i : ℕ) : ℤ) + off2 + 1) (v2 i)))) := by
  rw [show emittedIndices
      (((List.range n).map fun i => Tok.pair (((i : ℕ) : ℤ) + off1 + 1) (v1 i)) ++
       ((List.range n).map fun i => Tok.pair (((i : ℕ) : ℤ) + off2 + 1) (v2 i))) =
      emittedIndices ((List.range n).map fun i => Tok.pair (((i : ℕ) : ℤ) + off1 + 1) (v1 i)) ++
      emittedIndices ((List.range n).map fun i => Tok.pair (((i : ℕ) : ℤ) + off2 + 1) (v2 i))
    from List.filterMap_append _ _ _]
  rw [emittedIndices_block, emittedIndices_block, List.pairwise_append]
  refine ⟨pairwise_lt_shifted_range off1 n, pairwise_lt_shifted_range off2 n, ?_⟩
  intro x hx y hy
  obtain ⟨i, hi, rfl⟩ := List.mem_map.mp hx
  obtain ⟨j, hj, rfl⟩ := List.mem_map.mp hy
  have hi' : i < n := List.mem_range.mp hi
  omega

/-- C8: on two computed equal-size vectors with distinct offsets,
`WriteDiff` (negate=false) emits the two blocks in ascending offset order —
A's raw values at indices `i + offsetA + 1` and B's negated values at
indices `i + offsetB + 1`, whichever offset is smaller coming first — and
the emitted indices across the two blocks are strictly increasing. -/
theorem diff_print_distinct_offsets (a b : SCIP_FEAT) (label : ℤ)
    (hsize : a.size = b.size) (hpos : 0 < a.size)
    (hoff : SCIPfeatGetOffset a ≠ SCIPfeatGetOffset b) :
    SCIPfeatDiffLIBSVMPrint a b label false =
      Tok.lab label ::
        (if SCIPfeatGetOffset a < SCIPfeatGetOffset b
         then featBlockPos a a.size ++ featBlockNeg b a.size
         else featBlockNeg b a.size ++ featBlockPos a a.size)
        ++ [Tok.nl] ∧
    List.Pairwise (· < ·) (emittedIndices (SCIPfeatDiffLIBSVMPrint a b label false)) := by
  have hshape : SCIPfeatDiffLIBSVMPrint a b label false =
      Tok.lab label ::
        (if SCIPfeatGetOffset a < SCIPfeatGetOffset b
         then featBlockPos a a.size ++ featBlockNeg b a.size
         else featBlockNeg b a.size ++ featBlockPos a a.size)
        ++ [Tok.nl] := by
    simp only [SCIPfeatDiffLIBSVMPrint, featDiffPrintBody, SCIPfeatGetSize,
      if_neg Bool.false_ne_true, featBlockPos, featBlockNeg]
    rw [if_neg hoff]
  refine ⟨hshape, ?_⟩
  rw [hshape]
  have hnl : ∀ l : List Tok, emittedIndices (Tok.lab label :: l ++ [Tok.nl]) =
      emittedIndices l := by
    intro l
    simp [emittedIndices, List.filterMap_cons, List.filterMap_append]
  rw [hnl]
  rcases lt_or_gt_of_ne hoff with hlt | hgt
  · rw [if_pos hlt]
    exact pairwise_lt_two_blocks (SCIPfeatGetOffset a) (SCIPfeatGetOffset b) a.size _ _
      (offset_gap a b hsize hpos hlt)
  · rw [if_neg (not_lt.mpr (le_of_lt hgt))]
    have hgap : SCIPfeatGetOffset b + (a.size : ℤ) ≤ SCIPfeatGetOffset a := by
      have := offset_gap b a hsize.symm (hsize ▸ hpos) hgt
      omega
    exact pairwise_lt_two_blocks (SCIPfeatGetOffset b) (SCIPfeatGetOffset a) a.size _ _ hgap

/-- A computed vector with bound type UPPER(0 vs 1): same depth bucket as
`printScenarioFeat` but `boundtype = 1`, so its offset differs by `size`. -/
def printScenarioFeatC : SCIP_FEAT :=
  { vals := [4, 1, 6], size := 3, depth := 20, maxdepth := 100, boundtype := 1,
    rootlpobj := 0, sumobjcoeff := 0, nconstrs := 0 }

/-- Witness for C8: the theorem applied to two concrete computed vectors of
equal size and distinct offsets, hypotheses discharged by evaluation. -/
theorem diff_print_distinct_offsets_witness :
    SCIPfeatDiffLIBSVMPrint printScenarioFeat printScenarioFeatC 1 false =
      Tok.lab 1 ::
        (if SCIPfeatGetOffset printScenarioFeat < SCIPfeatGetOffset printScenarioFeatC
         then featBlockPos printScenarioFeat printScenarioFeat.size ++
              featBlockNeg printScenarioFeatC printScenarioFeat.size
         else featBlockNeg printScenarioFeatC printScenarioFeat.size ++
              featBlockPos printScenarioFeat printScenarioFeat.size)
        ++ [Tok.nl] ∧
    List.Pairwise (· < ·)
      (emittedIndices (SCIPfeatDiffLIBSVMPrint printScenarioFeat printScenarioFeatC 1 false)) :=
  diff_print_distinct_offsets printScenarioFeat printScenarioFeatC 1
    (by decide) (by decide) (by decide)

/-- Modelled from the spec: the slot index `SCIP_FEATNODESEL_LOWERBOUND`;
the `SCIP_FEATNODESEL_*` enumeration lives in feat.h, which is not under
src/, so the indices follow the spec's schema order (§4.2 steps 1-10). -/
def SCIP_FEATNODESEL_LOWERBOUND : ℕ := 0

/-- Modelled from the spec: slot index of `estimateRatio` (schema step 2). -/
def SCIP_FEATNODESEL_ESTIMATE : ℕ := 1

/-- Modelled from the spec: slot index of `relativeBound` (schema step 3). -/
def SCIP_FEATNODESEL_RELATIVEBOUND : ℕ := 2

/-- Modelled from the spec: slot index of the sibling indicator (step 4). -/
def SCIP_FEATNODESEL_TYPE_SIBLING : ℕ := 3

/-- Modelled from the spec: slot index of the child indicator (step 4). -/
def SCIP_FEATNODESEL_TYPE_CHILD : ℕ := 4

/-- Modelled from the spec: slot index of the leaf indicator (step 4). -/
def SCIP_FEATNODESEL_TYPE_LEAF : ℕ := 5

/-- Modelled from the spec: slot index of `branchVarObjRatio` (step 5). -/
def SCIP_FEATNODESEL_BRANCHVAR_OBJCONSTR : ℕ := 6

/-- Modelled from the spec: slot index of `branchVarBoundLpDiff` (step 6). -/
def SCIP_FEATNODESEL_BRANCHVAR_BOUNDLPDIFF : ℕ := 7

/-- Modelled from the spec: slot index of `branchVarRootLpDiff` (step 7). -/
def SCIP_FEATNODESEL_BRANCHVAR_ROOTLPDIFF : ℕ := 8

/-- Modelled from the spec: slot index of `branchPrioDown` (step 8). -/
def SCIP_FEATNODESEL_BRANCHVAR_PRIO_DOWN : ℕ := 9

/-- Modelled from the spec: slot index of `branchPrioUp` (step 8). -/
def SCIP_FEATNODESEL_BRANCHVAR_PRIO_UP : ℕ := 10

/-- Modelled from the spec: slot index of `branchVarPseudocost` (step 9). -/
def SCIP_FEATNODESEL_BRANCHVAR_PSEUDOCOST : ℕ := 11

/-- Modelled from the spec: slot index of `branchVarAvgInference` (step 10). -/
def SCIP_FEATNODESEL_BRANCHVAR_INF : ℕ := 12

/-- The node types the calculation distinguishes (external SCIP enum
`SCIP_NODETYPE`; all types other than sibling/child/leaf are collapsed
into `other` since the code only compares against these three). -/
inductive NodeType where
  | sibling
  | child
  | leaf
  | other
deriving DecidableEq

/-- Preferred branching direction (external SCIP enum `SCIP_BRANCHDIR`;
directions other than downwards/upwards are collapsed into `other`). -/
inductive BranchDir where
  | downwards
  | upwards
  | other
deriving DecidableEq

/-- The solver state `SCIPcalcNodeselFeat` reads through external SCIP
accessors (node, tree, stat, variable and column interfaces), gathered
into one explicit input record.  `pseudocost` stands for
`SCIPvarGetPseudocost(branchvar, stat, delta)` as a function of the
`delta` argument computed inside the call. -/
structure CalcInput where
  nodetype : NodeType
  nodedepth : ℤ
  nodelowerbound : ℚ
  nodeestimate : ℚ
  rootlowerbound : ℚ
  lowerbound : ℚ
  cutoffbound : ℚ
  nsolsfound : ℤ
  branchbound : ℚ
  branchboundtype : ℤ
  branchdirpreferred : BranchDir
  varobj : ℚ
  varcolsize : ℤ
  varsol : ℚ
  varrootsol : ℚ
  pseudocost : ℚ → ℚ
  avginfup : ℚ
  avginfdown : ℚ

/-- Truncation of a C `double` to a C `int` (rounds toward zero), as
performed by the assignment `varcolsize = 0.1` at feat.c line 138. -/
def cTruncToInt (q : ℚ) : ℤ :=
  q.num.tdiv (q.den : ℤ)

/-- The column-size divisor actually used at feat.c lines 136-138: the C
code tries to substitute 0.1 for a zero `varcolsize`, but `varcolsize` is
declared `int`, so the assigned value is the truncation of 0.1. -/
def calcVarcolsize (varcolsize : ℤ) : ℤ :=
  if varcolsize = 0 then cTruncToInt ((1 : ℚ)/10) else varcolsize

/-- The adjusted cutoff bound of feat.c lines 126-128: when no solution has
been found yet, the cutoff is shrunk toward the global lower bound by the
factor 0.2. -/
def cutoffAdjusted (nsolsfound : ℤ) (lowerbound cutoffbound : ℚ) : ℚ :=
  if nsolsfound = 0 then lowerbound + (2 : ℚ)/10 * (cutoffbound - lowerbound)
  else cutoffbound

/-- The C macro `ABS`. -/
def cABS (q : ℚ) : ℚ :=
  if q < 0 then -q else q

/-- Embedding of `SCIPcalcNodeselFeat` (feat.c lines 88-180).  The function
mutates `feat`: it sets `depth` and `boundtype` (lines 144-145) and writes
the feature slots into `vals` (lines 148-178) in source order; everything
else is read from the input record.  Note the zero-guard on
`rootlowerbound` (lines 123-124, a `SCIP_Real`, so 0.1 survives) versus
the zero-guard on `varcolsize` (lines 137-138, an `int`, so 0.1 truncates
to 0, see `calcVarcolsize`). -/
def SCIPcalcNodeselFeat (inp : CalcInput) (feat : SCIP_FEAT) : SCIP_FEAT :=
  let rootlowerbound := if inp.rootlowerbound = 0 then (1 : ℚ)/10 else inp.rootlowerbound
  let lowerbound := inp.lowerbound
  let cutoffbound := cutoffAdjusted inp.nsolsfound lowerbound inp.cutoffbound
  let branchbound := inp.branchbound
  let varobj := inp.varobj
  let varcolsize := calcVarcolsize inp.varcolsize
  let varsol := inp.varsol
  let varrootsol := inp.varrootsol
  let feat := { feat with depth := inp.nodedepth, boundtype := inp.branchboundtype }
  let vals := feat.vals
  let vals := vals.set SCIP_FEATNODESEL_LOWERBOUND (inp.nodelowerbound / rootlowerbound)
  let vals := vals.set SCIP_FEATNODESEL_ESTIMATE (inp.nodeestimate / rootlowerbound)
  let vals :=
    if cutoffbound - lowerbound ≠ 0 then
      vals.set SCIP_FEATNODESEL_RELATIVEBOUND
        ((inp.nodelowerbound - lowerbound) / (cutoffbound - lowerbound))
    else vals
  let vals :=
    if inp.nodetype = NodeType.sibling then vals.set SCIP_FEATNODESEL_TYPE_SIBLING 1
    else if inp.nodetype = NodeType.child then vals.set SCIP_FEATNODESEL_TYPE_CHILD 1
    else if inp.nodetype = NodeType.leaf then vals.set SCIP_FEATNODESEL_TYPE_LEAF 1
    else vals
  let vals := vals.set SCIP_FEATNODESEL_BRANCHVAR_OBJCONSTR (varobj / (varcolsize : ℚ))
  let vals := vals.set SCIP_FEATNODESEL_BRANCHVAR_BOUNDLPDIFF (branchbound - varsol)
  let vals := vals.set SCIP_FEATNODESEL_BRANCHVAR_ROOTLPDIFF (varrootsol - varsol)
  let vals :=
    if inp.branchdirpreferred = BranchDir.downwards then
      vals.set SCIP_FEATNODESEL_BRANCHVAR_PRIO_DOWN 1
    else if inp.branchdirpreferred = BranchDir.upwards then
      vals.set SCIP_FEATNODESEL_BRANCHVAR_PRIO_UP 1
    else vals
  let vals := vals.set SCIP_FEATNODESEL_BRANCHVAR_PSEUDOCOST
    (inp.pseudocost (branchbound - varsol) / cABS varobj)
  let vals := vals.set SCIP_FEATNODESEL_BRANCHVAR_INF
    (if feat.boundtype = 0 then inp.avginfup / (feat.maxdepth : ℚ)
     else inp.avginfdown / (feat.maxdepth : ℚ))
  { feat with vals := vals }

theorem getD_set_of_ne {i j : ℕ} (l : List ℚ) (a d : ℚ) (h : i ≠ j) :
    (l.set i a).getD j d = l.getD j d := by
  simp [List.getD_eq_getElem?_getD, List.getElem?_set_ne h]

theorem getD_set_self_ite (l : List ℚ) (i : ℕ) (a d : ℚ) :
    (l.set i a).getD i d = if i < l.length then a else d := by
  by_cases h : i < l.length
  · simp [List.getD_eq_getElem?_getD, List.getElem?_set_self h, h]
  · rw [List.set_eq_of_length_le (by omega), if_neg h]
    rw [List.getD_eq_getElem?_getD, List.getElem?_eq_none (show l.length ≤ i by omega)]
    rfl

theorem getD_ite (c : Prop) [Decidable c] (l1 l2 : List ℚ) (j : ℕ) (d : ℚ) :
    (if c then l1 else l2).getD j d = if c then l1.getD j d else l2.getD j d := by
  split
  · rfl
  · rfl

theorem getElem?_list_ite (c : Prop) [Decidable c] (l1 l2 : List ℚ) (j : ℕ) :
    (if c then l1 else l2)[j]? = if c then l1[j]? else l2[j]? := by
  split
  · rfl
  · rfl

theorem getD_option_ite (c : Prop) [Decidable c] (o1 o2 : Option ℚ) (d : ℚ) :
    (if c then o1 else o2).getD d = if c then o1.getD d else o2.getD d := by
  split
  · rfl
  · rfl

theorem length_list_ite (c : Prop) [Decidable c] (l1 l2 : List ℚ) :
    (if c then l1 else l2).length = if c then l1.length else l2.length := by
  split
  · rfl
  · rfl

/-- C4: after `SCIPcalcNodeselFeat`, the `lowerBoundRatio` slot holds the
node lower bound divided by the normalized root lower bound, and the
`estimateRatio` slot holds the node estimate divided by the same
normalizer, where the normalizer is the root lower bound if nonzero and
0.1 otherwise — a divisor that is never zero. -/
theorem calc_lowerbound_estimate_ratio (inp : CalcInput) (feat : SCIP_FEAT)
    (hlen : 13 ≤ feat.vals.length) :
    (SCIPcalcNodeselFeat inp feat).vals.getD SCIP_FEATNODESEL_LOWERBOUND 0 =
      inp.nodelowerbound /
        (if inp.rootlowerbound = 0 then (1 : ℚ)/10 else inp.rootlowerbound) ∧
    (SCIPcalcNodeselFeat inp feat).vals.getD SCIP_FEATNODESEL_ESTIMATE 0 =
      inp.nodeestimate /
        (if inp.rootlowerbound = 0 then (1 : ℚ)/10 else inp.rootlowerbound) ∧
    (if inp.rootlowerbound = 0 then (1 : ℚ)/10 else inp.rootlowerbound) ≠ 0 := by
  have h0 : 0 < feat.vals.length := by omega
  have h1 : 1 < feat.vals.length := by omega
  refine ⟨?_, ?_, ?_⟩
  · simp +decide [SCIPcalcNodeselFeat, SCIP_FEATNODESEL_LOWERBOUND,
      SCIP_FEATNODESEL_ESTIMATE, SCIP_FEATNODESEL_RELATIVEBOUND,
      SCIP_FEATNODESEL_TYPE_SIBLING, SCIP_FEATNODESEL_TYPE_CHILD,
      SCIP_FEATNODESEL_TYPE_LEAF, SCIP_FEATNODESEL_BRANCHVAR_OBJCONSTR,
      SCIP_FEATNODESEL_BRANCHVAR_BOUNDLPDIFF, SCIP_FEATNODESEL_BRANCHVAR_ROOTLPDIFF,
      SCIP_FEATNODESEL_BRANCHVAR_PRIO_DOWN, SCIP_FEATNODESEL_BRANCHVAR_PRIO_UP,
      SCIP_FEATNODESEL_BRANCHVAR_PSEUDOCOST, SCIP_FEATNODESEL_BRANCHVAR_INF,
      getD_set_of_ne, getD_ite, getElem?_list_ite, getD_option_ite,
      getD_set_self_ite, List.length_set, length_list_ite, ite_self,
      -List.getElem?_eq_getElem, h0]
  · simp +decide [SCIPcalcNodeselFeat, SCIP_FEATNODESEL_LOWERBOUND,
      SCIP_FEATNODESEL_ESTIMATE, SCIP_FEATNODESEL_RELATIVEBOUND,
      SCIP_FEATNODESEL_TYPE_SIBLING, SCIP_FEATNODESEL_TYPE_CHILD,
      SCIP_FEATNODESEL_TYPE_LEAF, SCIP_FEATNODESEL_BRANCHVAR_OBJCONSTR,
      SCIP_FEATNODESEL_BRANCHVAR_BOUNDLPDIFF, SCIP_FEATNODESEL_BRANCHVAR_ROOTLPDIFF,
      SCIP_FEATNODESEL_BRANCHVAR_PRIO_DOWN, SCIP_FEATNODESEL_BRANCHVAR_PRIO_UP,
      SCIP_FEATNODESEL_BRANCHVAR_PSEUDOCOST, SCIP_FEATNODESEL_BRANCHVAR_INF,
      getD_set_of_ne, getD_ite, getElem?_list_ite, getD_option_ite,
      getD_set_self_ite, List.length_set, length_list_ite, ite_self,
      -List.getElem?_eq_getElem, h1]
  · by_cases h : inp.rootlowerbound = 0
    · rw [if_pos h]
      norm_num
    · rw [if_neg h]
      exact h

/-- The calculation inputs of the degenerate-guard scenario: no solution
found yet, global lower bound 10, cutoff bound 50, a zero root lower
bound, and a branching variable with an empty column. -/
def calcScenarioInp : CalcInput :=
  { nodetype := NodeType.child, nodedepth := 3, nodelowerbound := 12,
    nodeestimate := 11, rootlowerbound := 0, lowerbound := 10,
    cutoffbound := 50, nsolsfound := 0, branchbound := 1, branchboundtype := 0,
    branchdirpreferred := BranchDir.upwards, varobj := 3, varcolsize := 0,
    varsol := 0, varrootsol := 1, pseudocost := fun _ => 2,
    avginfup := 4, avginfdown := 5 }

/-- A fresh feature vector (all slots zero) large enough for the schema. -/
def calcScenarioFeat : SCIP_FEAT :=
  { vals := List.replicate 13 0, size := 13, depth := 0, maxdepth := 100,
    boundtype := 0, rootlpobj := 0, sumobjcoeff := 0, nconstrs := 0 }

/-- Witness for C4: the theorem applied to a concrete input and a fresh
concrete vector; the length hypothesis is discharged by evaluation. -/
theorem calc_lowerbound_estimate_ratio_witness :
    (SCIPcalcNodeselFeat calcScenarioInp calcScenarioFeat).vals.getD
        SCIP_FEATNODESEL_LOWERBOUND 0 =
      calcScenarioInp.nodelowerbound /
        (if calcScenarioInp.rootlowerbound = 0 then (1 : ℚ)/10
         else calcScenarioInp.rootlowerbound) ∧
    (SCIPcalcNodeselFeat calcScenarioInp calcScenarioFeat).vals.getD
        SCIP_FEATNODESEL_ESTIMATE 0 =
      calcScenarioInp.nodeestimate /
        (if calcScenarioInp.rootlowerbound = 0 then (1 : ℚ)/10
         else calcScenarioInp.rootlowerbound) ∧
    (if calcScenarioInp.rootlowerbound = 0 then (1 : ℚ)/10
     else calcScenarioInp.rootlowerbound) ≠ 0 :=
  calc_lowerbound_estimate_ratio calcScenarioInp calcScenarioFeat (by decide)

/-- C3: starting from a fresh `relativeBound` slot, `SCIPcalcNodeselFeat`
sets it to (nodeLowerBound − globalLowerBound) / (cutoffAdjusted −
globalLowerBound) exactly when that denominator is nonzero, and leaves it
at its default 0 otherwise, where `cutoffAdjusted` is the cutoff shrunk
toward the lower bound by the factor 0.2 when no solution has been found
yet and the unmodified cutoff otherwise; concretely, lower bound 10 and
cutoff 50 with no solutions give the adjusted cutoff 18. -/
theorem calc_relativebound_guarded (inp : CalcInput) (feat : SCIP_FEAT)
    (hlen : 13 ≤ feat.vals.length)
    (hfresh : feat.vals.getD SCIP_FEATNODESEL_RELATIVEBOUND 0 = 0) :
    ((SCIPcalcNodeselFeat inp feat).vals.getD SCIP_FEATNODESEL_RELATIVEBOUND 0 =
      if cutoffAdjusted inp.nsolsfound inp.lowerbound inp.cutoffbound - inp.lowerbound ≠ 0
      then (inp.nodelowerbound - inp.lowerbound) /
        (cutoffAdjusted inp.nsolsfound inp.lowerbound inp.cutoffbound - inp.lowerbound)
      else 0) ∧
    cutoffAdjusted 0 10 50 = 18 := by
  have h2 : 2 < feat.vals.length := by omega
  simp only [SCIP_FEATNODESEL_RELATIVEBOUND, List.getD_eq_getElem?_getD] at hfresh
  constructor
  · simp +decide [SCIPcalcNodeselFeat, SCIP_FEATNODESEL_LOWERBOUND,
      SCIP_FEATNODESEL_ESTIMATE, SCIP_FEATNODESEL_RELATIVEBOUND,
      SCIP_FEATNODESEL_TYPE_SIBLING, SCIP_FEATNODESEL_TYPE_CHILD,
      SCIP_FEATNODESEL_TYPE_LEAF, SCIP_FEATNODESEL_BRANCHVAR_OBJCONSTR,
      SCIP_FEATNODESEL_BRANCHVAR_BOUNDLPDIFF, SCIP_FEATNODESEL_BRANCHVAR_ROOTLPDIFF,
      SCIP_FEATNODESEL_BRANCHVAR_PRIO_DOWN, SCIP_FEATNODESEL_BRANCHVAR_PRIO_UP,
      SCIP_FEATNODESEL_BRANCHVAR_PSEUDOCOST, SCIP_FEATNODESEL_BRANCHVAR_INF,
      getD_set_of_ne, getD_ite, getElem?_list_ite, getD_option_ite,
      getD_set_self_ite, List.length_set, length_list_ite, ite_self,
      -List.getElem?_eq_getElem, h2, hfresh]
  · norm_num [cutoffAdjusted]

/-- Witness for C3: the theorem applied to the concrete degenerate-guard
scenario (no solutions found, lower bound 10, cutoff 50) on a fresh
vector; both hypotheses discharged by evaluation. -/
theorem calc_relativebound_guarded_witness :
    ((SCIPcalcNodeselFeat calcScenarioInp calcScenarioFeat).vals.getD
        SCIP_FEATNODESEL_RELATIVEBOUND 0 =
      if cutoffAdjusted calcScenarioInp.nsolsfound calcScenarioInp.lowerbound
          calcScenarioInp.cutoffbound - calcScenarioInp.lowerbound ≠ 0
      then (calcScenarioInp.nodelowerbound - calcScenarioInp.lowerbound) /
        (cutoffAdjusted calcScenarioInp.nsolsfound calcScenarioInp.lowerbound
          calcScenarioInp.cutoffbound - calcScenarioInp.lowerbound)
      else 0) ∧
    cutoffAdjusted 0 10 50 = 18 :=
  calc_relativebound_guarded calcScenarioInp calcScenarioFeat (by decide) rfl

/-- C1 (code bug, feat.c lines 136-138 and 164): the zero-guard for the
branching variable's column nonzero count assigns 0.1 to the `int`
variable `varcolsize`, so the value truncates to 0 and the divisor used
for the `branchVarObjRatio` slot is 0 — not the substituted guard value
0.1 claimed by the spec; on the concrete scenario input (whose column
count is 0) the slot is computed as `varobj / 0`. -/
theorem calc_objratio_guard_truncates_to_zero :
    calcVarcolsize 0 = 0 ∧
    ((calcVarcolsize 0 : ℤ) : ℚ) ≠ (1 : ℚ)/10 ∧
    (SCIPcalcNodeselFeat calcScenarioInp calcScenarioFeat).vals.getD
        SCIP_FEATNODESEL_BRANCHVAR_OBJCONSTR 0 =
      calcScenarioInp.varobj / ((calcVarcolsize calcScenarioInp.varcolsize : ℤ) : ℚ) := by
  have htr : calcVarcolsize 0 = 0 := by
    rw [calcVarcolsize, if_pos rfl, cTruncToInt,
      show ((1 : ℚ)/10).num = 1 by norm_num, show ((1 : ℚ)/10).den = 10 by norm_num]
    decide
  refine ⟨htr, ?_, ?_⟩
  · rw [htr]
    norm_num
  · have h6 : 6 < calcScenarioFeat.vals.length := by decide
    simp +decide [SCIPcalcNodeselFeat, SCIP_FEATNODESEL_LOWERBOUND,
      SCIP_FEATNODESEL_ESTIMATE, SCIP_FEATNODESEL_RELATIVEBOUND,
      SCIP_FEATNODESEL_TYPE_SIBLING, SCIP_FEATNODESEL_TYPE_CHILD,
      SCIP_FEATNODESEL_TYPE_LEAF, SCIP_FEATNODESEL_BRANCHVAR_OBJCONSTR,
      SCIP_FEATNODESEL_BRANCHVAR_BOUNDLPDIFF, SCIP_FEATNODESEL_BRANCHVAR_ROOTLPDIFF,
      SCIP_FEATNODESEL_BRANCHVAR_PRIO_DOWN, SCIP_FEATNODESEL_BRANCHVAR_PRIO_UP,
      SCIP_FEATNODESEL_BRANCHVAR_PSEUDOCOST, SCIP_FEATNODESEL_BRANCHVAR_INF,
      getD_set_of_ne, getD_ite, getElem?_list_ite, getD_option_ite,
      getD_set_self_ite, List.length_set, length_list_ite, ite_self,
      -List.getElem?_eq_getElem, h6]

/-- C10: `SCIPcalcNodeselFeat` mutates only `depth`, `boundtype` and the
value slots of the target vector: the scalar metadata `rootlpobj`,
`sumobjcoeff` and `nconstrs` — and likewise `size` and `maxdepth` — are
identical before and after the call, for every input. -/
theorem calc_frame_scalar_metadata (inp : CalcInput) (feat : SCIP_FEAT) :
    (SCIPcalcNodeselFeat inp feat).rootlpobj = feat.rootlpobj ∧
    (SCIPcalcNodeselFeat inp feat).sumobjcoeff = feat.sumobjcoeff ∧
    (SCIPcalcNodeselFeat inp feat).nconstrs = feat.nconstrs ∧
    (SCIPcalcNodeselFeat inp feat).size = feat.size ∧
    (SCIPcalcNodeselFeat inp feat).maxdepth = feat.maxdepth :=
  ⟨rfl, rfl, rfl, rfl, rfl⟩

/-- Embedding of `SCIPfeatCopy` (feat.c lines 17-39).  Despite its second
parameter being named `sourcefeat`, the C code reads every scalar field
and every value slot from `feat` (the first parameter) and writes them
into `sourcefeat`; the copy loop runs for `i < feat->size`.  The result
pair is (new value of first parameter, new value of second parameter), so
the first component shows that the data source is not mutated. -/
def SCIPfeatCopy (feat sourcefeat : SCIP_FEAT) : SCIP_FEAT × SCIP_FEAT :=
  (feat,
   { maxdepth := feat.maxdepth, depth := feat.depth, size := feat.size,
     boundtype := feat.boundtype, rootlpobj := feat.rootlpobj,
     sumobjcoeff := feat.sumobjcoeff, nconstrs := feat.nconstrs,
     vals := feat.vals.take feat.size ++ sourcefeat.vals.drop feat.size })

/-- C9: on two vectors with allocated storage of equal size, `SCIPfeatCopy`
leaves its first parameter (the data source) untouched and overwrites its
second parameter (`sourcefeat`) with a value deeply equal to the data
source: every scalar field and every value slot.  The embedding is pure,
so the copy is a value and later mutation of the source cannot alter it;
the direction of data flow (first parameter into second) is exactly what
the pair equality states. -/
theorem copy_writes_second_from_first (feat sourcefeat : SCIP_FEAT)
    (hlen : feat.vals.length = feat.size)
    (hlen2 : sourcefeat.vals.length = feat.size) :
    (SCIPfeatCopy feat sourcefeat).1 = feat ∧
    (SCIPfeatCopy feat sourcefeat).2 = feat := by
  refine ⟨rfl, ?_⟩
  have h1 : feat.vals.take feat.size = feat.vals := by
    rw [← hlen]
    exact List.take_length feat.vals
  have h2 : sourcefeat.vals.drop feat.size = [] :=
    List.drop_eq_nil_of_le (by omega)
  show ({ feat with vals := feat.vals.take feat.size ++ sourcefeat.vals.drop feat.size }
      : SCIP_FEAT) = feat
  rw [h1, h2, List.append_nil]

/-- Witness for C9: the theorem applied to two concrete size-3 vectors;
the storage hypotheses are discharged by evaluation. -/
theorem copy_writes_second_from_first_witness :
    (SCIPfeatCopy printScenarioFeat printScenarioFeatB).1 = printScenarioFeat ∧
    (SCIPfeatCopy printScenarioFeat printScenarioFeatB).2 = printScenarioFeat :=
  copy_writes_second_from_first printScenarioFeat printScenarioFeatB (by decide) (by decide)
